import Mathlib

/-!
Shallow embedding of the abagen mouse query layer
(`abagen/mouse/utils.py` and `abagen/mouse/gene.py`).

Python values that can appear as identifying parameters are either
integers or strings; a keyword argument is `None`, a scalar, or a list.
Network I/O is modelled by an oracle function from the request URL to the
parsed response (JSON envelope or XML tree), and side effects (requests
issued, lines printed) are recorded explicitly.
-/

/-- Python exception carried by the embedded functions. -/
inductive PyErr where
  | typeError (msg : String)
  | valueError (msg : String)
  | attributeError (msg : String)
  | keyError (msg : String)
deriving DecidableEq

/-- A Python scalar that can be an identifying parameter: int or str. -/
inductive PVal where
  | pint (n : Int)
  | pstr (s : String)
deriving DecidableEq

/-- Python `str()` of a scalar. -/
def pyStr : PVal → String
  | .pint n => toString n
  | .pstr s => s

/-- A keyword argument of `_coerce_inputs`: `None`, a scalar, or a list. -/
inductive PParam where
  | pnone
  | pscalar (v : PVal)
  | plist (vs : List PVal)
deriving DecidableEq

/-- The loop of `_coerce_inputs`: walk `[('id', id), ('acronym', acronym),
('name', name)]` and stop at the first parameter that `is not None`. -/
def findCriteria : List (String × PParam) → Option (String × (PVal ⊕ List PVal))
  | [] => none
  | (_, .pnone) :: rest => findCriteria rest
  | (c, .pscalar v) :: _ => some (c, .inl v)
  | (c, .plist vs) :: _ => some (c, .inr vs)

/-- The `'in'`-branch of `_coerce_inputs`: quote each element for the string
fields, then `','.join` the `str()` of each element. -/
def joinedParam (criteria : String) (vs : List PVal) : String :=
  let quoted : List PVal :=
    if criteria = "acronym" ∨ criteria = "name" then
      vs.map (fun f => PVal.pstr ("'" ++ pyStr f ++ "'"))
    else vs
  String.intercalate "," (quoted.map pyStr)

/-- `abagen.mouse.utils._coerce_inputs`. -/
def coerce_inputs (id acronym name : PParam) : Except PyErr String :=
  match findCriteria [("id", id), ("acronym", acronym), ("name", name)] with
  | none =>
      .error (.typeError "At least one of ['id', 'acronym', 'name'] must be specified.")
  | some (criteria, .inl v) =>
      .ok ("[" ++ criteria ++ "$" ++ "eq" ++ pyStr v ++ "]")
  | some (criteria, .inr vs) =>
      .ok ("[" ++ criteria ++ "$" ++ "in" ++ joinedParam criteria vs ++ "]")

example : coerce_inputs .pnone (.plist [.pstr "SSp", .pstr "MOp"]) .pnone
    = .ok "[acronym$in'SSp','MOp']" := rfl

example : coerce_inputs (.pscalar (.pint 5)) .pnone .pnone = .ok "[id$eq5]" := rfl

example : coerce_inputs .pnone (.pscalar (.pstr "SSp")) .pnone
    = .ok "[acronym$eqSSp]" := rfl

example : coerce_inputs (.plist []) .pnone .pnone = .ok "[id$in]" := rfl

/-! ## The JSON query executor (`abagen.mouse.utils._make_api_query`) -/

/-- UTF-8 encoding of a character, as the list of its byte values. -/
def utf8Bytes (c : Char) : List Nat :=
  let n := c.toNat
  if n < 0x80 then [n]
  else if n < 0x800 then
    [0xC0 ||| (n >>> 6), 0x80 ||| (n &&& 0x3F)]
  else if n < 0x10000 then
    [0xE0 ||| (n >>> 12), 0x80 ||| ((n >>> 6) &&& 0x3F), 0x80 ||| (n &&& 0x3F)]
  else
    [0xF0 ||| (n >>> 18), 0x80 ||| ((n >>> 12) &&& 0x3F),
     0x80 ||| ((n >>> 6) &&& 0x3F), 0x80 ||| (n &&& 0x3F)]

/-- Upper-case hexadecimal digit for a value below 16. -/
def hexDigit (n : Nat) : Char :=
  if n < 10 then Char.ofNat (48 + n) else Char.ofNat (55 + n)

/-- How `urllib.parse.quote_plus` renders a single byte: alphanumerics and
`_.-~` kept, space becomes `+`, everything else is percent-encoded. -/
def quoteByte (n : Nat) : String :=
  if (48 ≤ n ∧ n ≤ 57) ∨ (65 ≤ n ∧ n ≤ 90) ∨ (97 ≤ n ∧ n ≤ 122)
      ∨ n = 95 ∨ n = 46 ∨ n = 45 ∨ n = 126 then
    String.singleton (Char.ofNat n)
  else if n = 32 then "+"
  else "%" ++ String.singleton (hexDigit (n / 16)) ++ String.singleton (hexDigit (n % 16))

/-- `urllib.parse.quote_plus` over the UTF-8 encoding of the string. -/
def quote_plus (s : String) : String :=
  String.join ((s.data.flatMap utf8Bytes).map quoteByte)

example : quote_plus "genes,plane of section" = "genes%2Cplane+of+section" := rfl

/-- A Python argument that is a string or a list of strings
(the `includes` / `criteria` / `attributes` kwargs). -/
inductive PStrs where
  | single (s : String)
  | several (l : List String)
deriving DecidableEq

/-- `','.join(value) if isinstance(value, list) else value`. -/
def joinList : PStrs → String
  | .single s => s
  | .several l => String.intercalate "," l

/-- One step of the URL-building loop of `_make_api_query`. -/
def addParam (url : String) (key : String) (value : Option PStrs) : String :=
  match value with
  | none => url
  | some v => url ++ key ++ "=" ++ quote_plus (joinList v) ++ "&"

/-- The full query URL built by `_make_api_query`. -/
def apiUrl (dtype : String) (includes criteria attributes : Option PStrs)
    (suffix : Option String) : String :=
  let base := "http://api.brain-map.org/api/v2/data/" ++ dtype ++ "/query.json?"
  let url := addParam (addParam (addParam base "include" includes) "criteria" criteria)
    "only" attributes
  match suffix with
  | none => url
  | some s => url ++ s

/-- The `total_rows` field of the JSON envelope: the service declares it an
integer but it may arrive as a string. -/
inductive TotalRows where
  | trInt (n : Int)
  | trStr (s : String)
deriving DecidableEq

/-- Python `info['total_rows'] == 0`: an int compares numerically, a string
never equals the integer `0`. -/
def pyEqZero : TotalRows → Bool
  | .trInt n => n == 0
  | .trStr _ => false

/-- A record of the JSON `msg` payload, as an attribute-to-value mapping. -/
abbrev JRec := List (String × String)

/-- The parsed JSON response envelope consumed by `_make_api_query`;
`msg` is `none` when the key is absent (`info.get('msg', [])`). -/
structure Envelope where
  success : Bool
  total_rows : TotalRows
  msg : Option (List JRec)

/-- What `_make_api_query` hands back on the non-raising paths: the warning
emitted (if any) and the raw record list. -/
structure QueryResult where
  warning : Option String
  records : List JRec

/-- An embedded Python call: the URLs requested, the lines printed, and the
returned value or the exception raised. -/
structure PyRun (α : Type) where
  requests : List String
  prints : List String
  result : Except PyErr α

/-- `abagen.mouse.utils._make_api_query`; `net` is the oracle mapping a
request URL to its parsed JSON envelope. -/
def make_api_query (dtype : String) (includes criteria attributes : Option PStrs)
    (suffix : Option String) (verbose : Bool) (net : String → Envelope) :
    PyRun QueryResult :=
  let url := apiUrl dtype includes criteria attributes suffix
  let prints := if verbose then ["Querying " ++ url ++ "..."] else []
  let info := net url
  if info.success = false then
    ⟨[url], prints, .error (.valueError ("Provided query " ++ url ++
      " is invalid. Please check parameters and try again."))⟩
  else if pyEqZero info.total_rows then
    ⟨[url], prints, .ok ⟨some ("Provided query " ++ url ++
      " returned no results. Please check parameters and try again."),
      info.msg.getD []⟩⟩
  else
    ⟨[url], prints, .ok ⟨none, info.msg.getD []⟩⟩

example :
    (make_api_query "Structure" none (some (.single "[id$eq5]")) none none false
      (fun _ => ⟨true, .trInt 1, some [[("id", "5")]]⟩)).result
      = .ok ⟨none, [[("id", "5")]]⟩ := rfl

example :
    (make_api_query "Structure" none none none none false
      (fun _ => ⟨true, .trStr "0", some []⟩)).result = .ok ⟨none, []⟩ := rfl

/-! ## The XML gene path (`abagen.mouse.gene`) -/

/-- A parsed XML element (`xml.etree.ElementTree.Element`): tag, attributes,
text content (`None` for an empty element), children in document order. -/
inductive XElem where
  | mk (tag : String) (attrib : List (String × String)) (text : Option String)
      (children : List XElem)

def XElem.tag : XElem → String
  | .mk t _ _ _ => t

def XElem.attrib : XElem → List (String × String)
  | .mk _ a _ _ => a

def XElem.text : XElem → Option String
  | .mk _ _ tx _ => tx

def XElem.children : XElem → List XElem
  | .mk _ _ _ c => c

/-- Python `d[k]` on an attribute dictionary. -/
def lookupAttr (k : String) (d : List (String × String)) : Option String :=
  (d.find? (fun kv => kv.1 == k)).map Prod.snd

/-- One step of an ElementTree path: the children with the given tag of each
element, in document order. -/
def descend (es : List XElem) (t : String) : List XElem :=
  es.flatMap (fun e => (XElem.children e).filter (fun c => XElem.tag c == t))

/-- `root.findall('section-data-sets/section-data-set/genes/gene/{attr}')`. -/
def findallGene (root : XElem) (attr : String) : List XElem :=
  ["section-data-sets", "section-data-set", "genes", "gene", attr].foldl descend [root]

/-- Whitespace stripped by Python `int(str)`. -/
def pyIsSpace (c : Char) : Bool :=
  c == ' ' || c == '\t' || c == '\n' || c == '\r' || c.toNat == 11 || c.toNat == 12

/-- Digit run of a Python integer literal: digits with single underscores
between them; rejects empty runs, leading/trailing/doubled underscores.
`prevDigit` records whether the previous character was a digit. -/
def parseDigitsU : List Char → Bool → Nat → Option Nat
  | [], prevDigit, acc => if prevDigit then some acc else none
  | c :: rest, prevDigit, acc =>
    if c.isDigit then parseDigitsU rest true (acc * 10 + (c.toNat - 48))
    else if c == '_' && prevDigit then parseDigitsU rest false acc
    else none

/-- Python `str.strip()` with the default whitespace set. -/
def pyStrip (s : String) : String :=
  ⟨((s.data.dropWhile pyIsSpace).reverse.dropWhile pyIsSpace).reverse⟩

/-- Python `int(s)` on a string: strip whitespace, optional sign, digits. -/
def pyInt (s : String) : Option Int :=
  let cs := ((s.data.dropWhile pyIsSpace).reverse.dropWhile pyIsSpace).reverse
  match cs with
  | '+' :: rest => (parseDigitsU rest false 0).map Int.ofNat
  | '-' :: rest => (parseDigitsU rest false 0).map (fun n => -(Int.ofNat n))
  | rest => (parseDigitsU rest false 0).map Int.ofNat

example : pyInt " 18376 " = some 18376 := rfl
example : pyInt "-7" = some (-7) := rfl
example : pyInt "Pdyn" = none := rfl
example : pyInt "" = none := rfl
example : pyInt "12_3" = some 123 := rfl
example : pyInt "_1" = none := rfl

/-- The value extracted for one gene attribute: `None`, an int, or a str. -/
inductive PyAttrVal where
  | vnone
  | vint (n : Int)
  | vstr (s : String)
deriving DecidableEq

/-- `abagen.mouse.gene._get_single_gene_attribute`: first match of the field
path; `int(text)` falling back to the raw text on `ValueError` and to `None`
on `TypeError` (absent text). -/
def get_single_gene_attribute (root : XElem) (attr : String) : Except PyErr PyAttrVal :=
  match findallGene root attr with
  | [] => .error (.attributeError ("There is no gene attribute called " ++ attr))
  | e :: _ =>
    match XElem.text e with
    | none => .ok .vnone
    | some t =>
      match pyInt t with
      | some k => .ok (.vint k)
      | none => .ok (.vstr t)

/-- `abagen.mouse.gene.URL_PREFIX` (the query base for the gene family). -/
def geneUrlBase : String :=
  "http://api.brain-map.org/api/v2/data/SectionDataSet/query.xml?criteria=products[id$eq1],"

/-- `abagen.mouse.gene.URL_INCLUDE`. -/
def geneUrlInclude : String := "&include=genes,plane_of_section"

/-- The URL chosen by `check_gene_validity`, honoring id > acronym > name;
`none` when no identifier was supplied. -/
def buildGeneQueryUrl (gene_id : Option Int) (gene_acronym gene_name : Option String) :
    Option String :=
  match gene_id with
  | some i => some (geneUrlBase ++ "genes[id$" ++ "eq" ++ toString i ++ "]" ++ geneUrlInclude)
  | none =>
    match gene_acronym with
    | some a => some (geneUrlBase ++ "genes[acronym$" ++ "eq'" ++ a ++ "']" ++ geneUrlInclude)
    | none =>
      match gene_name with
      | some m => some (geneUrlBase ++ "genes[name$" ++ "eq'" ++ m ++ "']" ++ geneUrlInclude)
      | none => none

/-- `abagen.mouse.gene.check_gene_validity`; `net` maps a request URL to the
parsed XML root. -/
def check_gene_validity (gene_id : Option Int) (gene_acronym gene_name : Option String)
    (net : String → XElem) : PyRun (Bool × XElem) :=
  match buildGeneQueryUrl gene_id gene_acronym gene_name with
  | none => ⟨[], [], .error (.typeError "at least one gene identifier should be specified")⟩
  | some url =>
    match lookupAttr "total_rows" (XElem.attrib (net url)) with
    | none => ⟨[url], ["access " ++ url ++ "..."], .error (.keyError "total_rows")⟩
    | some tr => ⟨[url], ["access " ++ url ++ "..."], .ok (tr != "0", net url)⟩

/-- `abagen.mouse.gene.GENE_ATTRIBUTES`. -/
def GENE_ATTRIBUTES : List String :=
  ["acronym", "alias-tags", "chromosome-id", "ensembl-id", "entrez-id",
   "genomic-reference-update-id", "homologene-id", "id", "legacy-ensembl-gene-id",
   "name", "organism-id", "original-name", "original-symbol",
   "reference-genome-id", "sphinx-id", "version-status"]

/-- Python dict assignment `d[k] = v`: overwrite in place or append. -/
def dictInsert (d : List (String × PyAttrVal)) (k : String) (v : PyAttrVal) :
    List (String × PyAttrVal) :=
  if d.any (fun kv => kv.1 == k) then d.map (fun kv => if kv.1 == k then (k, v) else kv)
  else d ++ [(k, v)]

/-- The attribute loop of `get_gene_info`: build the dict, skipping (with a
printed diagnostic) every attribute whose extraction raises `AttributeError`. -/
def geneInfoLoop (root : XElem) :
    List String → List (String × PyAttrVal) → List String →
    Except PyErr (List (String × PyAttrVal)) × List String
  | [], d, ps => (.ok d, ps)
  | attr :: rest, d, ps =>
    match get_single_gene_attribute root attr with
    | .ok v => geneInfoLoop root rest (dictInsert d attr v) ps
    | .error (.attributeError _) =>
        geneInfoLoop root rest d
          (ps ++ ["There is no attribute called " ++ attr ++ ". Skipped."])
    | .error e => (.error e, ps)

/-- The `attributes` kwarg of `get_gene_info`: a string or a list. -/
inductive PyAttrs where
  | pystr (s : String)
  | pylist (l : List String)

/-- Return value of `get_gene_info`: a bare value or an attribute dict. -/
inductive GeneInfo where
  | single (v : PyAttrVal)
  | multi (d : List (String × PyAttrVal))

/-- `str()` of the first non-`None` entry of `[gene_id, gene_acronym,
gene_name]`; the `""` arm is unreachable at its call site, where validity
checking has already required an identifier. -/
def firstIdent (gene_id : Option Int) (gene_acronym gene_name : Option String) : String :=
  match gene_id with
  | some i => toString i
  | none =>
    match gene_acronym with
    | some a => a
    | none =>
      match gene_name with
      | some m => m
      | none => ""

/-- `abagen.mouse.gene.get_gene_info`. -/
def get_gene_info (gene_id : Option Int) (gene_acronym gene_name : Option String)
    (attributes : PyAttrs) (net : String → XElem) : PyRun GeneInfo :=
  let cgv := check_gene_validity gene_id gene_acronym gene_name net
  match cgv.result with
  | .error e => ⟨cgv.requests, cgv.prints, .error e⟩
  | .ok (validity, root) =>
    if validity = false then
      ⟨cgv.requests, cgv.prints, .error (.valueError ("Gene " ++
        firstIdent gene_id gene_acronym gene_name ++ " is invalid. Try another gene."))⟩
    else
      match attributes with
      | .pylist attrList =>
        let res := geneInfoLoop root attrList [] []
        ⟨cgv.requests, cgv.prints ++ res.2, res.1.map GeneInfo.multi⟩
      | .pystr s =>
        if s = "all" then
          let res := geneInfoLoop root GENE_ATTRIBUTES [] []
          ⟨cgv.requests, cgv.prints ++ res.2, res.1.map GeneInfo.multi⟩
        else
          ⟨cgv.requests, cgv.prints, (get_single_gene_attribute root s).map GeneInfo.single⟩

/-! ## Concrete response fixtures -/

/-- A leaf element holding one gene field. -/
def geneLeaf (t : String) (v : Option String) : XElem := .mk t [] v []

/-- A response root wrapping the given gene elements with the given
`total_rows` attribute. -/
def geneResponse (rows : String) (genes : List XElem) : XElem :=
  .mk "Response" [("success", "true"), ("total_rows", rows)] none
    [.mk "section-data-sets" [] none
      [.mk "section-data-set" [] none
        [.mk "genes" [] none genes]]]

/-- A one-gene response in the shape returned for gene id 18376. -/
def pdynRoot : XElem :=
  geneResponse "1"
    [.mk "gene" [] none
      [geneLeaf "id" (some "18376"),
       geneLeaf "acronym" (some "Pdyn"),
       geneLeaf "name" (some "prodynorphin"),
       geneLeaf "alias-tags" none]]

/-- A two-gene response: a second record with different field values. -/
def twoGeneRoot : XElem :=
  geneResponse "2"
    [.mk "gene" [] none
      [geneLeaf "id" (some "18376"),
       geneLeaf "acronym" (some "Pdyn"),
       geneLeaf "name" (some "prodynorphin"),
       geneLeaf "alias-tags" none],
     .mk "gene" [] none
      [geneLeaf "id" (some "99999"),
       geneLeaf "acronym" (some "Other"),
       geneLeaf "name" (some "other gene"),
       geneLeaf "alias-tags" (some "x")]]

/-- A response whose `name` field carries text with surrounding whitespace. -/
def paddedRoot : XElem :=
  geneResponse "1"
    [.mk "gene" [] none [geneLeaf "name" (some " padded name ")]]

/-- An empty response: the identifier resolved to zero records. -/
def emptyRoot : XElem := geneResponse "0" []

example : get_single_gene_attribute pdynRoot "id" = .ok (.vint 18376) := rfl
example : get_single_gene_attribute pdynRoot "acronym" = .ok (.vstr "Pdyn") := rfl
example : get_single_gene_attribute pdynRoot "alias-tags" = .ok .vnone := rfl
example : get_single_gene_attribute pdynRoot "bogus"
    = .error (.attributeError "There is no gene attribute called bogus") := rfl
example : get_single_gene_attribute paddedRoot "name" = .ok (.vstr " padded name ") := rfl
example : get_single_gene_attribute twoGeneRoot "acronym" = .ok (.vstr "Pdyn") := rfl

example :
    (check_gene_validity (some 18376) none none (fun _ => pdynRoot)).result
      = .ok (true, pdynRoot) := rfl

example :
    (check_gene_validity none (some "zzz") none (fun _ => emptyRoot)).result
      = .ok (false, emptyRoot) := rfl

example :
    (get_gene_info (some 18376) none none (.pystr "name") (fun _ => pdynRoot)).result
      = .ok (.single (.vstr "prodynorphin")) := rfl

example :
    (get_gene_info (some 18376) none none (.pylist ["acronym", "bogus"])
      (fun _ => pdynRoot)).result
      = .ok (.multi [("acronym", .vstr "Pdyn")]) := rfl

example :
    "There is no attribute called bogus. Skipped." ∈
      (get_gene_info (some 18376) none none (.pylist ["acronym", "bogus"])
        (fun _ => pdynRoot)).prints := by decide

example :
    (get_gene_info (some 1) none none (.pystr "name") (fun _ => emptyRoot)).result
      = .error (.valueError "Gene 1 is invalid. Try another gene.") := rfl

/-! ## Claims -/

/-- Claim C1, counterexample: the claim asserts that a scalar string field is
quote-wrapped (`buildCriteria(acronym="SSp")` would give `[acronym$eq'SSp']`),
but `_coerce_inputs` only quotes inside the list branch, so a scalar acronym
comes out bare. -/
theorem coerce_inputs_scalar_unquoted_cex :
    coerce_inputs .pnone (.pscalar (.pstr "SSp")) .pnone = .ok "[acronym$eqSSp]" ∧
    "[acronym$eqSSp]" ≠ "[acronym$eq'SSp']" :=
  ⟨rfl, by decide⟩

/-- Claim C1, amended: for list inputs `_coerce_inputs` emits a membership
fragment with string elements quote-wrapped and numeric elements bare (e.g.
`acronym=["SSp","MOp"]` gives `[acronym$in'SSp','MOp']`); for scalar inputs it
emits an equality fragment (`id=5` gives `[id$eq5]`) that is never
string-quoted, not even for the string fields `acronym` and `name`. -/
theorem coerce_inputs_fragments :
    (∀ v : PVal, coerce_inputs (.pscalar v) .pnone .pnone
      = .ok ("[id$" ++ "eq" ++ pyStr v ++ "]")) ∧
    (∀ v : PVal, coerce_inputs .pnone (.pscalar v) .pnone
      = .ok ("[acronym$" ++ "eq" ++ pyStr v ++ "]")) ∧
    (∀ v : PVal, coerce_inputs .pnone .pnone (.pscalar v)
      = .ok ("[name$" ++ "eq" ++ pyStr v ++ "]")) ∧
    (∀ vs : List PVal, coerce_inputs (.plist vs) .pnone .pnone
      = .ok ("[id$" ++ "in" ++ String.intercalate "," (vs.map pyStr) ++ "]")) ∧
    (∀ vs : List PVal, coerce_inputs .pnone (.plist vs) .pnone
      = .ok ("[acronym$" ++ "in" ++
          String.intercalate "," (vs.map (fun f => "'" ++ pyStr f ++ "'")) ++ "]")) ∧
    (∀ vs : List PVal, coerce_inputs .pnone .pnone (.plist vs)
      = .ok ("[name$" ++ "in" ++
          String.intercalate "," (vs.map (fun f => "'" ++ pyStr f ++ "'")) ++ "]")) ∧
    coerce_inputs .pnone (.plist [.pstr "SSp", .pstr "MOp"]) .pnone
      = .ok "[acronym$in'SSp','MOp']" ∧
    coerce_inputs (.pscalar (.pint 5)) .pnone .pnone = .ok "[id$eq5]" := by
  refine ⟨fun v => rfl, fun v => rfl, fun v => rfl, fun vs => ?_, fun vs => ?_,
    fun vs => ?_, rfl, rfl⟩ <;>
    simp [coerce_inputs, findCriteria, joinedParam, pyStr, Function.comp_def]

/-- Claim C3: with all three identifying parameters absent, `_coerce_inputs`,
`check_gene_validity` and `get_gene_info` raise `TypeError`, no criteria
fragment is returned, and no network request is issued (the request trace is
empty). -/
theorem all_absent_rejected :
    coerce_inputs .pnone .pnone .pnone
      = .error (.typeError "At least one of ['id', 'acronym', 'name'] must be specified.") ∧
    (∀ net : String → XElem,
      check_gene_validity none none none net
        = ⟨[], [], .error (.typeError "at least one gene identifier should be specified")⟩) ∧
    (∀ (attrs : PyAttrs) (net : String → XElem),
      (get_gene_info none none none attrs net).result
        = .error (.typeError "at least one gene identifier should be specified") ∧
      (get_gene_info none none none attrs net).requests = []) :=
  ⟨rfl, fun _ => rfl, fun _ _ => ⟨rfl, rfl⟩⟩

/-- Claim C4: both `_coerce_inputs` and `check_gene_validity` honor only the
first non-null parameter in the fixed order id, acronym, name; any later
populated parameter leaves the result unchanged. -/
theorem identifier_precedence :
    (∀ (v : PVal) (a n : PParam),
      coerce_inputs (.pscalar v) a n = coerce_inputs (.pscalar v) .pnone .pnone) ∧
    (∀ (vs : List PVal) (a n : PParam),
      coerce_inputs (.plist vs) a n = coerce_inputs (.plist vs) .pnone .pnone) ∧
    (∀ (v : PVal) (n : PParam),
      coerce_inputs .pnone (.pscalar v) n = coerce_inputs .pnone (.pscalar v) .pnone) ∧
    (∀ (vs : List PVal) (n : PParam),
      coerce_inputs .pnone (.plist vs) n = coerce_inputs .pnone (.plist vs) .pnone) ∧
    (∀ (i : Int) (ga gn : Option String) (net : String → XElem),
      check_gene_validity (some i) ga gn net = check_gene_validity (some i) none none net) ∧
    (∀ (a : String) (gn : Option String) (net : String → XElem),
      check_gene_validity none (some a) gn net = check_gene_validity none (some a) none net) :=
  ⟨fun _ _ _ => rfl, fun _ _ _ => rfl, fun _ _ => rfl, fun _ _ => rfl,
   fun _ _ _ _ => rfl, fun _ _ _ => rfl⟩

/-- Claim C2, counterexample: with success true and the zero row count
arriving as the string `"0"`, `_make_api_query` emits no warning (Python
`'0' == 0` is false), contradicting the claim that the warning behaviour
holds also for string-encoded row counts. -/
theorem make_api_query_string_total_rows_cex :
    (make_api_query "Gene" none none none none false
      (fun _ => ⟨true, .trStr "0", some [[("id", "5")]]⟩)).result
      = .ok ⟨none, [[("id", "5")]]⟩ ∧
    (∀ w : String,
      (Except.ok ⟨some w, [[("id", "5")]]⟩ : Except PyErr QueryResult)
        ≠ .ok ⟨none, [[("id", "5")]]⟩) :=
  ⟨rfl, fun w h => by simp at h⟩

/-- Claim C2, amended: `_make_api_query` raises `ValueError` if and only if
the envelope's success flag is false; when success is true and `total_rows`
is the integer `0` it raises nothing, emits a warning naming the query URL
and returns the record list; but the `total_rows == 0` test only fires for
an integer row count — a row count arriving as a string never triggers the
warning (the records are still returned). -/
theorem make_api_query_envelope_behavior (dtype : String)
    (includes criteria attributes : Option PStrs) (suffix : Option String)
    (verbose : Bool) (net : String → Envelope) :
    ((net (apiUrl dtype includes criteria attributes suffix)).success = false →
      (make_api_query dtype includes criteria attributes suffix verbose net).result
        = .error (.valueError ("Provided query " ++
            apiUrl dtype includes criteria attributes suffix ++
            " is invalid. Please check parameters and try again."))) ∧
    ((net (apiUrl dtype includes criteria attributes suffix)).success = true →
      pyEqZero (net (apiUrl dtype includes criteria attributes suffix)).total_rows = true →
      (make_api_query dtype includes criteria attributes suffix verbose net).result
        = .ok ⟨some ("Provided query " ++
            apiUrl dtype includes criteria attributes suffix ++
            " returned no results. Please check parameters and try again."),
            ((net (apiUrl dtype includes criteria attributes suffix)).msg).getD []⟩) ∧
    ((net (apiUrl dtype includes criteria attributes suffix)).success = true →
      pyEqZero (net (apiUrl dtype includes criteria attributes suffix)).total_rows = false →
      (make_api_query dtype includes criteria attributes suffix verbose net).result
        = .ok ⟨none, ((net (apiUrl dtype includes criteria attributes suffix)).msg).getD []⟩) ∧
    (∀ k : Int, pyEqZero (.trInt k) = (k == 0)) ∧
    (∀ s : String, pyEqZero (.trStr s) = false) := by
  refine ⟨fun h => ?_, fun hs hz => ?_, fun hs hz => ?_, fun _ => rfl, fun _ => rfl⟩
  · simp [make_api_query, h]
  · simp [make_api_query, hs, hz]
  · simp [make_api_query, hs, hz]

/-- Claim C2, witness: the three envelope scenarios of
`make_api_query_envelope_behavior` at concrete inputs. -/
theorem make_api_query_envelope_behavior_witness :
    (make_api_query "Gene" none none none none false
      (fun _ => ⟨false, .trInt 3, none⟩)).result
      = .error (.valueError ("Provided query http://api.brain-map.org/api/v2/data/Gene/query.json? is invalid. Please check parameters and try again.")) ∧
    (make_api_query "Gene" none none none none false
      (fun _ => ⟨true, .trInt 0, some []⟩)).result
      = .ok ⟨some "Provided query http://api.brain-map.org/api/v2/data/Gene/query.json? returned no results. Please check parameters and try again.", []⟩ ∧
    (make_api_query "Gene" none none none none false
      (fun _ => ⟨true, .trInt 2, some [[("id", "1")]]⟩)).result
      = .ok ⟨none, [[("id", "1")]]⟩ :=
  ⟨(make_api_query_envelope_behavior "Gene" none none none none false
      (fun _ => ⟨false, .trInt 3, none⟩)).1 rfl,
   (make_api_query_envelope_behavior "Gene" none none none none false
      (fun _ => ⟨true, .trInt 0, some []⟩)).2.1 rfl rfl,
   (make_api_query_envelope_behavior "Gene" none none none none false
      (fun _ => ⟨true, .trInt 2, some [[("id", "1")]]⟩)).2.2.1 rfl rfl⟩

/-- Claim C5, counterexample: the extracted text is returned raw, not
trimmed: a `name` value of `" padded name "` comes back with its
whitespace, while the claim promises the trimmed text. -/
theorem get_single_gene_attribute_untrimmed_cex :
    get_single_gene_attribute paddedRoot "name" = .ok (.vstr " padded name ") ∧
    " padded name " ≠ pyStrip " padded name " ∧
    pyStrip " padded name " = "padded name" :=
  ⟨rfl, by decide, by decide⟩

/-- Claim C5, amended: single-attribute extraction fails with
`AttributeError` when the field path yields zero matches; on a match with
absent text it returns the `None` marker; integer-parseable text becomes an
integer; any other text is returned raw (untrimmed). -/
theorem get_single_gene_attribute_cases (root : XElem) (attr : String) :
    (findallGene root attr = [] →
      get_single_gene_attribute root attr
        = .error (.attributeError ("There is no gene attribute called " ++ attr))) ∧
    (∀ e rest, findallGene root attr = e :: rest → XElem.text e = none →
      get_single_gene_attribute root attr = .ok .vnone) ∧
    (∀ e rest t k, findallGene root attr = e :: rest → XElem.text e = some t →
      pyInt t = some k → get_single_gene_attribute root attr = .ok (.vint k)) ∧
    (∀ e rest t, findallGene root attr = e :: rest → XElem.text e = some t →
      pyInt t = none → get_single_gene_attribute root attr = .ok (.vstr t)) := by
  refine ⟨fun h => ?_, fun e rest h hx => ?_, fun e rest t k h hx hp => ?_,
    fun e rest t h hx hp => ?_⟩
  · simp [get_single_gene_attribute, h]
  · simp [get_single_gene_attribute, h, hx]
  · simp [get_single_gene_attribute, h, hx, hp]
  · simp [get_single_gene_attribute, h, hx, hp]

/-- Claim C5, witness: the four extraction outcomes on the fixture response
for gene 18376. -/
theorem get_single_gene_attribute_cases_witness :
    get_single_gene_attribute pdynRoot "bogus"
      = .error (.attributeError "There is no gene attribute called bogus") ∧
    get_single_gene_attribute pdynRoot "alias-tags" = .ok .vnone ∧
    get_single_gene_attribute pdynRoot "id" = .ok (.vint 18376) ∧
    get_single_gene_attribute pdynRoot "acronym" = .ok (.vstr "Pdyn") :=
  ⟨(get_single_gene_attribute_cases pdynRoot "bogus").1 rfl,
   (get_single_gene_attribute_cases pdynRoot "alias-tags").2.1 _ _ rfl rfl,
   (get_single_gene_attribute_cases pdynRoot "id").2.2.1 _ _ _ _ rfl rfl rfl,
   (get_single_gene_attribute_cases pdynRoot "acronym").2.2.2 _ _ _ rfl rfl rfl⟩

/-- `_get_single_gene_attribute` can only raise `AttributeError`, with the
fixed unknown-attribute message. -/
theorem gsa_error_attributeError (root : XElem) (attr : String) (e : PyErr)
    (h : get_single_gene_attribute root attr = .error e) :
    e = .attributeError ("There is no gene attribute called " ++ attr) := by
  cases hf : findallGene root attr with
  | nil =>
    simp only [get_single_gene_attribute, hf] at h
    exact (Except.error.inj h).symm
  | cons x xs =>
    simp only [get_single_gene_attribute, hf] at h
    cases hx : XElem.text x with
    | none => rw [hx] at h; simp at h
    | some t =>
      rw [hx] at h
      cases hp : pyInt t with
      | none => simp [hp] at h
      | some k => simp [hp] at h

/-- The attribute loop of `get_gene_info` never raises. -/
theorem geneInfoLoop_ok (root : XElem) :
    ∀ (attrs : List String) (d : List (String × PyAttrVal)) (ps : List String),
      ∃ d' ps', geneInfoLoop root attrs d ps = (.ok d', ps') := by
  intro attrs
  induction attrs with
  | nil => exact fun d ps => ⟨d, ps, rfl⟩
  | cons a rest ih =>
    intro d ps
    cases hg : get_single_gene_attribute root a with
    | ok v =>
      obtain ⟨d', ps', hl⟩ := ih (dictInsert d a v) ps
      exact ⟨d', ps', by simp only [geneInfoLoop, hg]; exact hl⟩
    | error e =>
      have he := gsa_error_attributeError root a e hg
      subst he
      obtain ⟨d', ps', hl⟩ :=
        ih d (ps ++ ["There is no attribute called " ++ a ++ ". Skipped."])
      exact ⟨d', ps', by simp only [geneInfoLoop, hg]; exact hl⟩

/-- Lines already printed survive the rest of the attribute loop. -/
theorem geneInfoLoop_prints_mono (root : XElem) :
    ∀ (attrs : List String) (d : List (String × PyAttrVal)) (ps : List String)
      (s : String), s ∈ ps → s ∈ (geneInfoLoop root attrs d ps).2 := by
  intro attrs
  induction attrs with
  | nil => exact fun d ps s hs => hs
  | cons a rest ih =>
    intro d ps s hs
    cases hg : get_single_gene_attribute root a with
    | ok v => simp only [geneInfoLoop, hg]; exact ih _ _ _ hs
    | error e =>
      have he := gsa_error_attributeError root a e hg
      subst he
      simp only [geneInfoLoop, hg]
      exact ih _ _ _ (List.mem_append_left _ hs)

/-- A requested attribute whose extraction raises gets a skip diagnostic
printed by the loop. -/
theorem geneInfoLoop_diag (root : XElem) (attr : String) (e : PyErr)
    (ha : get_single_gene_attribute root attr = .error e) :
    ∀ (attrs : List String) (d : List (String × PyAttrVal)) (ps : List String),
      attr ∈ attrs →
      ("There is no attribute called " ++ attr ++ ". Skipped.")
        ∈ (geneInfoLoop root attrs d ps).2 := by
  intro attrs
  induction attrs with
  | nil => intro d ps hmem; cases hmem
  | cons a rest ih =>
    intro d ps hmem
    rcases List.mem_cons.mp hmem with heq | hmem'
    · subst heq
      have hae := gsa_error_attributeError root attr e ha
      subst hae
      simp only [geneInfoLoop, ha]
      exact geneInfoLoop_prints_mono root rest d _ _
        (List.mem_append_right _ (by simp))
    · cases hg : get_single_gene_attribute root a with
      | ok v => simp only [geneInfoLoop, hg]; exact ih _ _ hmem'
      | error e2 =>
        have he2 := gsa_error_attributeError root a e2 hg
        subst he2
        simp only [geneInfoLoop, hg]
        exact ih _ _ hmem'

/-- `dictInsert` with a different key cannot introduce a key. -/
theorem dictInsert_not_key (d : List (String × PyAttrVal)) (k k' : String)
    (v : PyAttrVal) (h1 : k' ∉ d.map Prod.fst) (h2 : k' ≠ k) :
    k' ∉ (dictInsert d k v).map Prod.fst := by
  intro hmem
  unfold dictInsert at hmem
  split at hmem
  · rcases List.mem_map.mp hmem with ⟨q, hq, hfst⟩
    rcases List.mem_map.mp hq with ⟨kv, hkv, rfl⟩
    by_cases hk : kv.1 = k
    · rw [if_pos (by simpa using hk)] at hfst
      exact h2 hfst.symm
    · rw [if_neg (by simpa using hk)] at hfst
      exact h1 (List.mem_map.mpr ⟨kv, hkv, hfst⟩)
  · rw [List.map_append] at hmem
    rcases List.mem_append.mp hmem with hmem' | hmem'
    · exact h1 hmem'
    · simp at hmem'
      exact h2 hmem'

/-- A key whose extraction raises never enters the loop's dict. -/
theorem geneInfoLoop_not_key (root : XElem) (attr : String) (e : PyErr)
    (ha : get_single_gene_attribute root attr = .error e) :
    ∀ (attrs : List String) (d : List (String × PyAttrVal)) (ps : List String)
      (d' : List (String × PyAttrVal)) (ps' : List String),
      attr ∉ d.map Prod.fst →
      geneInfoLoop root attrs d ps = (.ok d', ps') →
      attr ∉ d'.map Prod.fst := by
  intro attrs
  induction attrs with
  | nil =>
    intro d ps d' ps' hnk hl
    simp only [geneInfoLoop, Prod.mk.injEq, Except.ok.injEq] at hl
    rw [← hl.1]
    exact hnk
  | cons a rest ih =>
    intro d ps d' ps' hnk hl
    cases hg : get_single_gene_attribute root a with
    | ok v =>
      have hne : a ≠ attr := by
        intro heq
        subst heq
        rw [ha] at hg
        exact absurd hg (by simp)
      simp only [geneInfoLoop, hg] at hl
      exact ih _ _ _ _ (dictInsert_not_key d a attr v hnk (Ne.symm hne)) hl
    | error e2 =>
      have he2 := gsa_error_attributeError root a e2 hg
      subst he2
      simp only [geneInfoLoop, hg] at hl
      exact ih _ _ _ _ hnk hl

/-- Claim C6: during multi-attribute extraction an unknown attribute name is
skipped — the call still returns a mapping, the name is absent from it, and
a diagnostic naming it is printed — whereas requesting the same unknown name
as the sole (non-list, non-`'all'`) attribute surfaces the
`AttributeError`. -/
theorem get_gene_info_unknown_attribute (gene_id : Option Int)
    (gene_acronym gene_name : Option String) (net : String → XElem)
    (url tr : String) (attrs : List String) (attr m : String)
    (hb : buildGeneQueryUrl gene_id gene_acronym gene_name = some url)
    (ht : lookupAttr "total_rows" (XElem.attrib (net url)) = some tr)
    (hv : (tr != "0") = true)
    (ha : get_single_gene_attribute (net url) attr = .error (.attributeError m))
    (hall : attr ≠ "all") :
    (∃ d, (get_gene_info gene_id gene_acronym gene_name (.pylist attrs) net).result
        = .ok (.multi d) ∧ attr ∉ d.map Prod.fst) ∧
    (attr ∈ attrs →
      ("There is no attribute called " ++ attr ++ ". Skipped.")
        ∈ (get_gene_info gene_id gene_acronym gene_name (.pylist attrs) net).prints) ∧
    (get_gene_info gene_id gene_acronym gene_name (.pystr attr) net).result
      = .error (.attributeError m) := by
  have hcgv : check_gene_validity gene_id gene_acronym gene_name net
      = ⟨[url], ["access " ++ url ++ "..."], .ok (tr != "0", net url)⟩ := by
    simp [check_gene_validity, hb, ht]
  obtain ⟨d', ps', hloop⟩ := geneInfoLoop_ok (net url) attrs [] []
  refine ⟨⟨d', ?_, ?_⟩, fun hmem => ?_, ?_⟩
  · simp [get_gene_info, hcgv, hv, hloop, Except.map]
  · exact geneInfoLoop_not_key (net url) attr _ ha attrs [] [] d' ps' (by simp) hloop
  · have hdiag := geneInfoLoop_diag (net url) attr _ ha attrs [] [] hmem
    rw [hloop] at hdiag
    simp [get_gene_info, hcgv, hv, hloop]
    exact Or.inr hdiag
  · simp [get_gene_info, hcgv, hv, hall, ha, Except.map]

/-- Claim C6, witness: on the gene-18376 fixture, `['acronym', 'bogus']`
yields a mapping without `bogus` plus a skip diagnostic, while requesting
`bogus` alone raises. -/
theorem get_gene_info_unknown_attribute_witness :
    (∃ d, (get_gene_info (some 18376) none none (.pylist ["acronym", "bogus"])
        (fun _ => pdynRoot)).result = .ok (.multi d) ∧ "bogus" ∉ d.map Prod.fst) ∧
    ("There is no attribute called bogus. Skipped."
      ∈ (get_gene_info (some 18376) none none (.pylist ["acronym", "bogus"])
          (fun _ => pdynRoot)).prints) ∧
    (get_gene_info (some 18376) none none (.pystr "bogus") (fun _ => pdynRoot)).result
      = .error (.attributeError "There is no gene attribute called bogus") := by
  have h := get_gene_info_unknown_attribute (some 18376) none none
    (fun _ => pdynRoot) _ "1" ["acronym", "bogus"] "bogus"
    "There is no gene attribute called bogus" rfl rfl rfl rfl (by decide)
  exact ⟨h.1, h.2.1 (by decide), h.2.2⟩

/-- Claim C9: single-attribute extraction depends only on the first match of
the field path — two responses with the same first match (one of them with
extra matching records) extract the same value. -/
theorem get_single_gene_attribute_first_match (r1 r2 : XElem) (attr : String)
    (h : (findallGene r1 attr).head? = (findallGene r2 attr).head?) :
    get_single_gene_attribute r1 attr = get_single_gene_attribute r2 attr := by
  cases h1 : findallGene r1 attr with
  | nil =>
    cases h2 : findallGene r2 attr with
    | nil => simp [get_single_gene_attribute, h1, h2]
    | cons e' es' => rw [h1, h2] at h; simp at h
  | cons e es =>
    cases h2 : findallGene r2 attr with
    | nil => rw [h1, h2] at h; simp at h
    | cons e' es' =>
      rw [h1, h2] at h
      simp only [List.head?_cons, Option.some.injEq] at h
      subst h
      simp [get_single_gene_attribute, h1, h2]

/-- Claim C9, witness: a two-record response (second record with different
field values) extracts exactly what the one-record response extracts. -/
theorem get_single_gene_attribute_first_match_witness :
    get_single_gene_attribute twoGeneRoot "acronym"
      = get_single_gene_attribute pdynRoot "acronym" ∧
    get_single_gene_attribute twoGeneRoot "acronym" = .ok (.vstr "Pdyn") ∧
    get_single_gene_attribute twoGeneRoot "alias-tags" = .ok .vnone :=
  ⟨get_single_gene_attribute_first_match twoGeneRoot pdynRoot "acronym" rfl, rfl, rfl⟩

/-- With at least one unit of fuel, `Nat.toDigitsCore` emits at least one
digit on top of the accumulator. -/
theorem toDigitsCore_length_ge (b : Nat) :
    ∀ (f n : Nat) (acc : List Char), 1 ≤ f →
      acc.length + 1 ≤ (Nat.toDigitsCore b f n acc).length := by
  intro f
  induction f with
  | zero => intro n acc h; omega
  | succ f ih =>
    intro n acc _
    simp only [Nat.toDigitsCore]
    by_cases hx : n / b = 0
    · simp [hx]
    · rw [if_neg hx]
      cases f with
      | zero => simp [Nat.toDigitsCore]
      | succ f' =>
        have h := ih (n / b) (Nat.digitChar (n % b) :: acc) (by omega)
        simp only [List.length_cons] at h
        omega

/-- The canonical decimal rendering of a natural number is `"0"` exactly for
zero. -/
theorem natRepr_eq_zero_iff (n : Nat) : Nat.repr n = "0" ↔ n = 0 := by
  constructor
  · intro h
    have h' : Nat.toDigitsCore 10 (n + 1) n [] = ['0'] := by
      have := congrArg String.data h
      simpa [Nat.repr, Nat.toDigits, List.asString] using this
    rw [Nat.toDigitsCore] at h'
    by_cases h10 : n / 10 = 0
    · rw [if_pos h10] at h'
      have h1 : Nat.digitChar (n % 10) = '0' := List.head_eq_of_cons_eq h'
      have hm : n % 10 < 10 := Nat.mod_lt _ (by omega)
      have hm0 : n % 10 = 0 := by
        generalize hg : n % 10 = m at h1 hm ⊢
        interval_cases m <;> first | rfl | exact absurd h1 (by decide)
      omega
    · rw [if_neg h10] at h'
      have hn : 10 ≤ n := by omega
      have hlen := toDigitsCore_length_ge 10 n (n / 10)
        [Nat.digitChar (n % 10)] (by omega)
      rw [h'] at hlen
      simp at hlen
  · intro h; subst h; rfl

/-- Bool version of `natRepr_eq_zero_iff`, matching the `!=` test used by
`check_gene_validity`. -/
theorem natRepr_bne_zero (n : Nat) : (Nat.repr n != "0") = (n != 0) := by
  by_cases h : n = 0
  · subst h; rfl
  · have h1 : Nat.repr n ≠ "0" := fun hc => h ((natRepr_eq_zero_iff n).1 hc)
    have h2 : (Nat.repr n != "0") = true := bne_iff_ne.mpr h1
    have h3 : (n != 0) = true := bne_iff_ne.mpr h
    rw [h2, h3]

/-- Claim C7: whenever the XML envelope reports a total row count of `n` (in
canonical decimal), `check_gene_validity` returns the pair of the validity
flag — true exactly when `n` is nonzero — together with the raw parsed
response, also when the flag is false. -/
theorem check_gene_validity_nonzero_rows (gene_id : Option Int)
    (gene_acronym gene_name : Option String) (net : String → XElem)
    (url : String) (n : Nat)
    (hb : buildGeneQueryUrl gene_id gene_acronym gene_name = some url)
    (ht : lookupAttr "total_rows" (XElem.attrib (net url)) = some (Nat.repr n)) :
    (check_gene_validity gene_id gene_acronym gene_name net).result
      = .ok (n != 0, net url) := by
  simp [check_gene_validity, hb, ht, natRepr_bne_zero]

/-- Claim C7, witness: a one-row response validates gene 18376 and returns
the raw response; a zero-row response reports invalid and still returns the
raw response. -/
theorem check_gene_validity_nonzero_rows_witness :
    (check_gene_validity (some 18376) none none (fun _ => pdynRoot)).result
      = .ok (true, pdynRoot) ∧
    (check_gene_validity (some 1) none none (fun _ => emptyRoot)).result
      = .ok (false, emptyRoot) :=
  ⟨check_gene_validity_nonzero_rows (some 18376) none none (fun _ => pdynRoot)
      _ 1 rfl rfl,
   check_gene_validity_nonzero_rows (some 1) none none (fun _ => emptyRoot)
      _ 0 rfl rfl⟩

/-- Claim C8: when the identifier resolves to zero records (`total_rows` is
`"0"`), `get_gene_info` raises `ValueError` whose message names the first
non-null of id, acronym, name; no attribute value is returned. -/
theorem get_gene_info_not_found (gene_id : Option Int)
    (gene_acronym gene_name : Option String) (attributes : PyAttrs)
    (net : String → XElem) (url : String)
    (hb : buildGeneQueryUrl gene_id gene_acronym gene_name = some url)
    (ht : lookupAttr "total_rows" (XElem.attrib (net url)) = some "0") :
    (get_gene_info gene_id gene_acronym gene_name attributes net).result
      = .error (.valueError ("Gene " ++ firstIdent gene_id gene_acronym gene_name ++
          " is invalid. Try another gene.")) ∧
    (∀ i, gene_id = some i → firstIdent gene_id gene_acronym gene_name = toString i) ∧
    (gene_id = none → ∀ a, gene_acronym = some a →
      firstIdent gene_id gene_acronym gene_name = a) ∧
    (gene_id = none → gene_acronym = none → ∀ m, gene_name = some m →
      firstIdent gene_id gene_acronym gene_name = m) := by
  refine ⟨?_, ?_, ?_, ?_⟩
  · simp [get_gene_info, check_gene_validity, hb, ht]
  · rintro i rfl; rfl
  · rintro rfl a rfl; rfl
  · rintro rfl rfl m rfl; rfl

/-- Claim C8, witness: looking up the unresolvable acronym `zzz` raises
`ValueError` naming `zzz`, the first non-null identifier. -/
theorem get_gene_info_not_found_witness :
    (get_gene_info none (some "zzz") none (.pystr "name") (fun _ => emptyRoot)).result
      = .error (.valueError "Gene zzz is invalid. Try another gene.") ∧
    firstIdent none (some "zzz") none = "zzz" :=
  ⟨(get_gene_info_not_found none (some "zzz") none (.pystr "name")
      (fun _ => emptyRoot) _ rfl rfl).1,
   (get_gene_info_not_found none (some "zzz") none (.pystr "name")
      (fun _ => emptyRoot) _ rfl rfl).2.2.1 rfl "zzz" rfl⟩

/-- Claim C10: an empty list is a supplied parameter for `_coerce_inputs`:
`id=[]` does not raise `TypeError` and yields the memberless membership
fragment `[id$in]`. -/
theorem coerce_inputs_empty_list_in :
    coerce_inputs (.plist []) .pnone .pnone = .ok "[id$in]" := rfl
